import Mathlib

/-!
# Process entry dispatcher of `atom/app/atom_main.cc`

A shallow embedding of the three platform entry points of `atom_main.cc`
(`wWinMain` for `OS_WIN`, `main` for `OS_LINUX`, `main` for macOS) together with
the helper `IsEnvSet`, followed by theorems about mode selection, bootstrap
side effects and exit codes.

Modelling conventions.

* The process environment is a lookup function from variable names to values
  (`Env`); `_putenv_s` updates it.
* Narrow C strings are `String`; wide (`wchar_t*`) strings are lists of UTF-16
  code units (`WString`).  The terminating NUL is not part of either.
* Preprocessor symbols (`ENABLE_RUN_AS_NODE`, `_DEBUG`, `DEBUG`) are fields of
  `BuildConfig`; every `#if` becomes an `if` on the corresponding field.
* Functions the file calls but does not define (`atom::NodeMain`,
  `crash_service::Main`, `content::ContentMain`, `AtomMain`,
  `AtomInitializeICUandStartNode`, `atom::CheckCommandLineArguments`,
  `base::WideToUTF8`) are fields of `Externals`; theorems quantify over them.
* Every call with an effect outside the function is recorded, in program order,
  as an `Event` in the trace of the result.
-/

namespace AtomMain

/-! ## Strings and the environment -/

/-- A UTF-16 code unit (`wchar_t` on Windows). -/
abbrev WChar := Nat

/-- A wide string, without its terminating NUL. -/
abbrev WString := List WChar

/-- UTF-16 code units of one character. -/
def utf16 (c : Char) : WString :=
  if c.toNat < 0x10000 then [c.toNat]
  else [0xD800 + (c.toNat - 0x10000) / 0x400, 0xDC00 + (c.toNat - 0x10000) % 0x400]

/-- Wide string literal `L"..."`. -/
def L (s : String) : WString := s.toList.flatMap utf16

/-- Lower-casing used by `_wcsicmp` in the "C" locale: only `A`..`Z` change. -/
def towlower (c : WChar) : WChar := if 65 ≤ c ∧ c ≤ 90 then c + 32 else c

/-- CRT `_wcsicmp`: compares the lower-cased code units up to the first
difference or the terminating NUL and returns the difference of the two code
units there (`0` when the strings are equal ignoring case). -/
def wcsicmp : WString → WString → Int
  | [], [] => 0
  | [], b :: _ => 0 - (towlower b : Int)
  | a :: _, [] => (towlower a : Int)
  | a :: as, b :: bs =>
    if towlower a = towlower b then wcsicmp as bs
    else (towlower a : Int) - (towlower b : Int)

/-- The process environment: the value the C runtime finds for a name, if any. -/
abbrev Env := String → Option String

/-- The environment with no variable. -/
def Env.empty : Env := fun _ => none

/-- CRT `_putenv_s(name, value)` with a non-empty value. -/
def Env.putenv (env : Env) (name value : String) : Env :=
  fun n => if n = name then some value else env n

/-- POSIX `getenv(name)`: the value, or null. -/
def getenv (env : Env) (name : String) : Option String := env name

/-- CRT `getenv_s(&required_size, nullptr, 0, name)`: the size of the buffer
needed for the value including its terminating NUL, or `0` when the variable is
not found. -/
def getenv_s_required_size (env : Env) (name : String) : Nat :=
  match env name with
  | none => 0
  | some v => v.utf8ByteSize + 1

/-- The first character `s[0]` of a NUL-terminated string with content `s`. -/
def firstChar (s : String) : Char := (s.toList ++ [Char.ofNat 0]).headD (Char.ofNat 0)

/-- Target platform of the build (`OS_WIN`, `OS_LINUX`, otherwise macOS). -/
inductive Platform
  | win
  | linux
  | mac
  deriving DecidableEq, Repr

/-- Preprocessor symbols the file tests. -/
structure BuildConfig where
  /-- Whether `ENABLE_RUN_AS_NODE` is defined. -/
  enableRunAsNode : Bool
  /-- Whether `_DEBUG` is defined. -/
  crtDebug : Bool
  /-- Whether `DEBUG` is defined. -/
  debug : Bool
  deriving DecidableEq, Repr

/-- The constant `kRunAsNode`. -/
def kRunAsNode : String := "ELECTRON_RUN_AS_NODE"

/-- The constant `kCI` of `wWinMain`. -/
def kCI : String := "ELECTRON_CI"

/-- The function `IsEnvSet(name)`, lines 46-55: the `OS_WIN` branch tests the required size
reported by `getenv_s`, the other branch tests `getenv` for non-null and a
first character other than NUL. -/
def IsEnvSet (p : Platform) (env : Env) (name : String) : Bool :=
  match p with
  | Platform.win => getenv_s_required_size env name != 0
  | _ =>
    match getenv env name with
    | none => false
    | some indicator => firstChar indicator != Char.ofNat 0

/-! ## Events, externals and results -/

/-- CRT report types passed to `_CrtSetReportMode` / `_CrtSetReportFile`. -/
inductive CrtReport
  | error
  | assert
  deriving DecidableEq, Repr

/-- The members of `content::ContentMainParams` the entry points assign. -/
structure ContentMainParams where
  /-- Member `params.instance` (Windows). -/
  hinstance : Option Nat
  /-- Whether `params.sandbox_info` points to an initialized descriptor (Windows). -/
  sandboxInfo : Bool
  /-- Members `params.argc` / `params.argv` (Linux). -/
  argv : Option (List String)
  deriving DecidableEq, Repr

/-- Calls made by the entry points, with their arguments and, for those whose
result is used, the value they returned. -/
inductive Event
  /-- Call `_putenv_s(name, value)`. -/
  | putenv (name value : String)
  /-- Call `_CrtSetReportMode(type, _CRTDBG_MODE_DEBUG | _CRTDBG_MODE_FILE)`. -/
  | crtSetReportMode (type : CrtReport)
  /-- Call `_CrtSetReportFile(type, _CRTDBG_FILE_STDERR)`. -/
  | crtSetReportFile (type : CrtReport)
  /-- Call `_set_error_mode(_OUT_TO_STDERR)`. -/
  | setErrorMode
  /-- Call `base::RouteStdioToConsole(b)`. -/
  | routeStdioToConsole (b : Bool)
  /-- Call `atexit(...)` registering the `OnThreadExit` call. -/
  | atexitOnThreadExit
  /-- Constructor of `base::AtExitManager`. -/
  | atExitManagerCreate
  /-- Destructor of `base::AtExitManager`. -/
  | atExitManagerDestroy
  /-- Call `base::i18n::InitializeICU()`. -/
  | initializeICU
  /-- Call `atom::NodeMain(argc, argv)` and its result. -/
  | nodeMain (argv : List String) (ret : Int)
  /-- Call `crash_service::Main(cmd)` and its result. -/
  | crashServiceMain (cmd : WString) (ret : Int)
  /-- Call `atom::CheckCommandLineArguments(argc, argv)` and its result. -/
  | checkCommandLineArguments (argv : List WString) (ok : Bool)
  /-- Call `content::InitializeSandboxInfo(&sandbox_info)`. -/
  | initializeSandboxInfo
  /-- Constructor of `atom::AtomMainDelegate`. -/
  | delegateCreate
  /-- Destructor of `atom::AtomMainDelegate`. -/
  | delegateDestroy
  /-- Call `atom::AtomCommandLine::Init(argc, argv)` with wide arguments. -/
  | atomCommandLineInitW (argv : List WString)
  /-- Call `atom::AtomCommandLine::Init(argc, argv)` with narrow arguments. -/
  | atomCommandLineInit (argv : List String)
  /-- Call `content::ContentMain(params)` and its result. -/
  | contentMain (params : ContentMainParams) (ret : Int)
  /-- Call `AtomMain(argc, argv)` and its result. -/
  | atomMain (argv : List String) (ret : Int)
  /-- Call `AtomInitializeICUandStartNode(argc, argv)` and its result. -/
  | atomInitializeICUandStartNode (argv : List String) (ret : Int)
  /-- Call of `LocalFree(argv)` in the destructor of `Arguments`. -/
  | localFree
  deriving DecidableEq, Repr

/-- Functions called by the entry points and defined elsewhere. -/
structure Externals where
  /-- Function `atom::NodeMain`. -/
  NodeMain : List String → Int
  /-- Function `crash_service::Main`. -/
  CrashServiceMain : WString → Int
  /-- Function `content::ContentMain`. -/
  ContentMain : ContentMainParams → Int
  /-- Function `AtomMain` of the macOS framework library. -/
  AtomMain : List String → Int
  /-- Function `AtomInitializeICUandStartNode` of the macOS framework library. -/
  AtomInitializeICUandStartNode : List String → Int
  /-- Function `atom::CheckCommandLineArguments`. -/
  CheckCommandLineArguments : List WString → Bool
  /-- Function `base::WideToUTF8`. -/
  WideToUTF8 : WString → String

/-- The environment and the calls made so far. -/
structure World where
  /-- Current environment. -/
  env : Env
  /-- Calls made so far, oldest first. -/
  trace : List Event

/-- Record one call. -/
def World.emit (w : World) (e : Event) : World :=
  { w with trace := w.trace ++ [e] }

/-- Record several calls. -/
def World.emits (w : World) (es : List Event) : World :=
  { w with trace := w.trace ++ es }

/-- Perform `_putenv_s(name, value)`. -/
def World.putenv (w : World) (name value : String) : World :=
  { env := w.env.putenv name value, trace := w.trace ++ [Event.putenv name value] }

/-- Outcome of an entry point: the returned exit code, the environment after
the entry point's own writes (what the called entry point sees and child
processes inherit), and all calls it made. -/
structure Result where
  /-- Value returned by the entry point. -/
  exitCode : Int
  /-- Environment after the writes of the entry point itself. -/
  env : Env
  /-- Calls made, oldest first. -/
  trace : List Event

/-- Finish with exit code `code` in world `w`. -/
def World.ret (w : World) (code : Int) : Result :=
  { exitCode := code, env := w.env, trace := w.trace }

/-! ## `wWinMain` -/

/-- The wide literal `L"--ci"`. -/
def ciToken : WString := L "--ci"

/-- The `for` loop of lines 77-83: at the first argument that `_wcsicmp` finds
equal to `L"--ci"`, set `is_ci`, write `ELECTRON_CI=1` and stop. -/
def scanCI : List WString → World → Bool × World
  | [], w => (false, w)
  | a :: rest, w =>
    if wcsicmp a ciToken = 0 then (true, w.putenv kCI "1")
    else scanCI rest w

/-- Lines 86-92: the calls that send CRT error and assertion reports to
standard error. -/
def crtStderrRouting : List Event :=
  [Event.crtSetReportMode CrtReport.error, Event.crtSetReportFile CrtReport.error,
   Event.crtSetReportMode CrtReport.assert, Event.crtSetReportFile CrtReport.assert,
   Event.setErrorMode]

/-- The `_DEBUG` block, lines 73-93. -/
def ciSetup (argv : List WString) (w : World) : World :=
  let is_ci := IsEnvSet Platform.win w.env kCI
  let r := if !is_ci then scanCI argv w else (is_ci, w)
  if r.1 then r.2.emits crtStderrRouting else r.2

/-- The `ENABLE_RUN_AS_NODE` block, lines 126-137. -/
def winNodeBranch (ext : Externals) (argv : List WString) (w : World) : Int × World :=
  let argv8 := argv.map ext.WideToUTF8
  let ret := ext.NodeMain argv8
  (ret, w.emits [Event.atExitManagerCreate, Event.initializeICU,
                 Event.nodeMain argv8 ret, Event.atExitManagerDestroy])

/-- The `content::ContentMainParams` built by `wWinMain`, lines 151-153. -/
def winParams (hinstance : Nat) : ContentMainParams :=
  { hinstance := some hinstance, sandboxInfo := true, argv := none }

/-- The `content::ContentMainParams` built by the Linux `main`, lines 170-172. -/
def linuxParams (argv : List String) : ContentMainParams :=
  { hinstance := none, sandboxInfo := false, argv := some argv }

/-- Lines 144-155: the application path of `wWinMain`. -/
def winAppBranch (ext : Externals) (hinstance : Nat) (argv : List WString) (w : World) :
    Int × World :=
  if !ext.CheckCommandLineArguments argv then
    (-1, w.emit (Event.checkCommandLineArguments argv false))
  else
    let params := winParams hinstance
    let ret := ext.ContentMain params
    (ret, w.emits [Event.checkCommandLineArguments argv true, Event.initializeSandboxInfo,
                   Event.delegateCreate, Event.atomCommandLineInitW argv,
                   Event.contentMain params ret, Event.delegateDestroy])

/-- The function `wWinMain(instance, _, cmd, _)`, lines 61-156.  `acquired` is
the result of `CommandLineToArgvW(GetCommandLineW(), &argc)`: `none` for a null
pointer, otherwise the argument vector. -/
def wWinMain (cfg : BuildConfig) (ext : Externals) (env : Env) (hinstance : Nat)
    (cmd : WString) (acquired : Option (List WString)) : Result :=
  let w0 : World := { env := env, trace := [] }
  match acquired with
  | none => (w0.emit Event.localFree).ret (-1)
  | some argv =>
    let w1 := if cfg.crtDebug then ciSetup argv w0 else w0
    let run_as_node :=
      if cfg.enableRunAsNode then IsEnvSet Platform.win w1.env kRunAsNode else false
    let w2 :=
      if run_as_node || !IsEnvSet Platform.win w1.env "ELECTRON_NO_ATTACH_CONSOLE" then
        w1.emit (Event.routeStdioToConsole false)
      else w1
    let w3 := if !cfg.debug then w2.emit Event.atexitOnThreadExit else w2
    let r : Int × World :=
      if cfg.enableRunAsNode && run_as_node then winNodeBranch ext argv w3
      else if IsEnvSet Platform.win w3.env "ELECTRON_INTERNAL_CRASH_SERVICE" then
        let ret := ext.CrashServiceMain cmd
        (ret, w3.emit (Event.crashServiceMain cmd ret))
      else winAppBranch ext hinstance argv w3
    (r.2.emit Event.localFree).ret r.1

/-! ## `main` on Linux and macOS -/

/-- The function `main(argc, argv)` for `OS_LINUX`, lines 160-175. -/
def mainLinux (cfg : BuildConfig) (ext : Externals) (env : Env) (argv : List String) : Result :=
  let w0 : World := { env := env, trace := [] }
  if cfg.enableRunAsNode && IsEnvSet Platform.linux w0.env kRunAsNode then
    let ret := ext.NodeMain argv
    (w0.emits [Event.initializeICU, Event.atExitManagerCreate,
               Event.nodeMain argv ret, Event.atExitManagerDestroy]).ret ret
  else
    let params := linuxParams argv
    let ret := ext.ContentMain params
    (w0.emits [Event.delegateCreate, Event.atomCommandLineInit argv,
               Event.contentMain params ret, Event.delegateDestroy]).ret ret

/-- The function `main(argc, argv)` for macOS, lines 179-187. -/
def mainMac (cfg : BuildConfig) (ext : Externals) (env : Env) (argv : List String) : Result :=
  let w0 : World := { env := env, trace := [] }
  if cfg.enableRunAsNode && IsEnvSet Platform.mac w0.env kRunAsNode then
    let ret := ext.AtomInitializeICUandStartNode argv
    (w0.emit (Event.atomInitializeICUandStartNode argv ret)).ret ret
  else
    let ret := ext.AtomMain argv
    (w0.emit (Event.atomMain argv ret)).ret ret

/-! ## Observations on results -/

/-- The execution modes of the dispatcher: one per branch of the entry points. -/
inductive ExecutionMode
  | ApplicationMain
  | EmbeddedRuntimeOnly
  | CrashReportService
  deriving DecidableEq, Repr

/-- Whether an event is a call of one of the external entry points
(`atom::NodeMain`, `crash_service::Main`, `content::ContentMain`, `AtomMain`,
`AtomInitializeICUandStartNode`). -/
def Event.isHandoff : Event → Bool
  | Event.nodeMain _ _ => true
  | Event.crashServiceMain _ _ => true
  | Event.contentMain _ _ => true
  | Event.atomMain _ _ => true
  | Event.atomInitializeICUandStartNode _ _ => true
  | _ => false

/-- The value an entry-point call returned. -/
def Event.handoffRet : Event → Option Int
  | Event.nodeMain _ r => some r
  | Event.crashServiceMain _ r => some r
  | Event.contentMain _ r => some r
  | Event.atomMain _ r => some r
  | Event.atomInitializeICUandStartNode _ r => some r
  | _ => none

/-- The entry-point calls of a trace, in order. -/
def handoffs (t : List Event) : List Event := t.filter Event.isHandoff

/-- The branch of the entry point an event belongs to, for the events that
occur in one branch only: the embedded-runtime branch calls `atom::NodeMain`
or `AtomInitializeICUandStartNode`, the crash-service branch calls
`crash_service::Main`, and the application branch calls
`atom::CheckCommandLineArguments`, `content::ContentMain` or `AtomMain`. -/
def Event.mode : Event → Option ExecutionMode
  | Event.nodeMain _ _ => some ExecutionMode.EmbeddedRuntimeOnly
  | Event.atomInitializeICUandStartNode _ _ => some ExecutionMode.EmbeddedRuntimeOnly
  | Event.crashServiceMain _ _ => some ExecutionMode.CrashReportService
  | Event.checkCommandLineArguments _ _ => some ExecutionMode.ApplicationMain
  | Event.contentMain _ _ => some ExecutionMode.ApplicationMain
  | Event.atomMain _ _ => some ExecutionMode.ApplicationMain
  | _ => none

/-- The branch a run entered: the mode of its first branch-specific event, or
`none` when the run entered no branch. -/
def selectedMode (t : List Event) : Option ExecutionMode := t.findSome? Event.mode

/-- The flag reading of the specification (section 4.1), in its words: a
variable is set only if it exists and its value is non-empty.  Used to state
where `IsEnvSet` departs from it. -/
def specIsSet (env : Env) (name : String) : Bool :=
  match env name with
  | none => false
  | some v => v != ""

/-- Whether some argument is equal to `L"--ci"` for `_wcsicmp`. -/
def ciHit (argv : List WString) : Bool := argv.any (fun a => wcsicmp a ciToken == 0)

/-- Whether an event is one of the calls of lines 72-123 of `wWinMain`. -/
def Event.isBootstrap : Event → Bool
  | Event.putenv _ _ => true
  | Event.crtSetReportMode _ => true
  | Event.crtSetReportFile _ => true
  | Event.setErrorMode => true
  | Event.routeStdioToConsole _ => true
  | Event.atexitOnThreadExit => true
  | _ => false

/-- Whether an event is one of the calls of the application path (argument
check, sandbox descriptor, delegate, command-line registration, framework
entry). -/
def Event.isApplication : Event → Bool
  | Event.checkCommandLineArguments _ _ => true
  | Event.initializeSandboxInfo => true
  | Event.delegateCreate => true
  | Event.delegateDestroy => true
  | Event.atomCommandLineInitW _ => true
  | Event.atomCommandLineInit _ => true
  | Event.contentMain _ _ => true
  | Event.atomMain _ _ => true
  | _ => false

/-! ## Closed forms of the Windows entry point

The functions below describe `wWinMain` in terms of the initial environment;
`wWinMain_some` proves that they agree with it. -/

/-- The environment after the `_DEBUG` block. -/
def ciEnv (env : Env) (argv : List WString) : Env :=
  if !IsEnvSet Platform.win env kCI && ciHit argv then env.putenv kCI "1" else env

/-- The calls made by the `_DEBUG` block. -/
def ciEvents (env : Env) (argv : List WString) : List Event :=
  if IsEnvSet Platform.win env kCI then crtStderrRouting
  else if ciHit argv then Event.putenv kCI "1" :: crtStderrRouting
  else []

/-- The environment `wWinMain` leaves when argument acquisition succeeded. -/
def winEnv (cfg : BuildConfig) (env : Env) (argv : List WString) : Env :=
  if cfg.crtDebug then ciEnv env argv else env

/-- The value of `run_as_node` in `wWinMain`, from the initial environment. -/
def winRunAsNode (cfg : BuildConfig) (env : Env) : Bool :=
  cfg.enableRunAsNode && IsEnvSet Platform.win env kRunAsNode

/-- The calls `wWinMain` makes before it branches on the mode (lines 72-123). -/
def winBootstrap (cfg : BuildConfig) (env : Env) (argv : List WString) : List Event :=
  (if cfg.crtDebug then ciEvents env argv else []) ++
  (if winRunAsNode cfg env || !IsEnvSet Platform.win env "ELECTRON_NO_ATTACH_CONSOLE" then
    [Event.routeStdioToConsole false] else []) ++
  (if cfg.debug then [] else [Event.atexitOnThreadExit])

/-- The exit code and the calls of the branch `wWinMain` takes (lines 125-155). -/
def winBranch (cfg : BuildConfig) (ext : Externals) (env : Env) (hinstance : Nat)
    (cmd : WString) (argv : List WString) : Int × List Event :=
  if winRunAsNode cfg env then
    (ext.NodeMain (argv.map ext.WideToUTF8),
     [Event.atExitManagerCreate, Event.initializeICU,
      Event.nodeMain (argv.map ext.WideToUTF8) (ext.NodeMain (argv.map ext.WideToUTF8)),
      Event.atExitManagerDestroy])
  else if IsEnvSet Platform.win env "ELECTRON_INTERNAL_CRASH_SERVICE" then
    (ext.CrashServiceMain cmd, [Event.crashServiceMain cmd (ext.CrashServiceMain cmd)])
  else if ext.CheckCommandLineArguments argv then
    (ext.ContentMain (winParams hinstance),
     [Event.checkCommandLineArguments argv true, Event.initializeSandboxInfo,
      Event.delegateCreate, Event.atomCommandLineInitW argv,
      Event.contentMain (winParams hinstance) (ext.ContentMain (winParams hinstance)),
      Event.delegateDestroy])
  else (-1, [Event.checkCommandLineArguments argv false])

/-! ## Sample inputs -/

/-- The environment with the single variable `name=value`. -/
def Env.single (name value : String) : Env :=
  fun n => if n = name then some value else none

/-- Sample externals: every entry point returns a distinct code, the argument
check accepts, and transcoding maps each code unit to the character with that
code. -/
def sampleExternals : Externals :=
  { NodeMain := fun _ => 11
    CrashServiceMain := fun _ => 12
    ContentMain := fun _ => 13
    AtomMain := fun _ => 14
    AtomInitializeICUandStartNode := fun _ => 15
    CheckCommandLineArguments := fun _ => true
    WideToUTF8 := fun w => String.mk (w.map Char.ofNat) }

/-- Sample externals whose argument check rejects. -/
def rejectingExternals : Externals :=
  { sampleExternals with CheckCommandLineArguments := fun _ => false }

/-- A build with `ENABLE_RUN_AS_NODE`, `_DEBUG` and `DEBUG` defined. -/
def debugBuild : BuildConfig := { enableRunAsNode := true, crtDebug := true, debug := true }

/-- A build with `ENABLE_RUN_AS_NODE` defined and neither `_DEBUG` nor `DEBUG`. -/
def releaseBuild : BuildConfig := { enableRunAsNode := true, crtDebug := false, debug := false }

/-! ## Auxiliary lemmas -/

theorem scanCI_eq (argv : List WString) (w : World) :
    scanCI argv w = if ciHit argv then (true, w.putenv kCI "1") else (false, w) := by
  induction argv with
  | nil => simp [scanCI, ciHit]
  | cons a rest ih =>
    by_cases h : wcsicmp a ciToken = 0
    · simp [scanCI, ciHit, h]
    · simp [scanCI, ciHit, h, ih]

theorem IsEnvSet_putenv_of_ne (p : Platform) (env : Env) (name other value : String)
    (h : name ≠ other) :
    IsEnvSet p (env.putenv other value) name = IsEnvSet p env name := by
  cases p <;> simp [IsEnvSet, getenv_s_required_size, getenv, Env.putenv, h]

theorem ciSetup_eq (argv : List WString) (w : World) :
    ciSetup argv w = { env := ciEnv w.env argv, trace := w.trace ++ ciEvents w.env argv } := by
  unfold ciSetup ciEnv ciEvents
  rw [scanCI_eq]
  cases h1 : IsEnvSet Platform.win w.env kCI <;> cases h2 : ciHit argv <;>
    simp [World.emits, World.putenv]

theorem IsEnvSet_ciEnv_of_ne (env : Env) (argv : List WString) (name : String)
    (h : name ≠ kCI) :
    IsEnvSet Platform.win (ciEnv env argv) name = IsEnvSet Platform.win env name := by
  unfold ciEnv
  split
  · exact IsEnvSet_putenv_of_ne _ _ _ _ _ h
  · rfl

theorem kRunAsNode_ne_kCI : kRunAsNode ≠ kCI := by decide

theorem noAttach_ne_kCI : "ELECTRON_NO_ATTACH_CONSOLE" ≠ kCI := by decide

theorem crashService_ne_kCI : "ELECTRON_INTERNAL_CRASH_SERVICE" ≠ kCI := by decide

/-- Closed form of `wWinMain` after successful argument acquisition: the flags
it reads after the `_DEBUG` block have the value they had in the initial
environment. -/
theorem wWinMain_some (cfg : BuildConfig) (ext : Externals) (env : Env) (hinstance : Nat)
    (cmd : WString) (argv : List WString) :
    wWinMain cfg ext env hinstance cmd (some argv) =
      { exitCode := (winBranch cfg ext env hinstance cmd argv).1
        env := winEnv cfg env argv
        trace := winBootstrap cfg env argv ++ (winBranch cfg ext env hinstance cmd argv).2 ++
                  [Event.localFree] } := by
  have e1 := IsEnvSet_ciEnv_of_ne env argv _ kRunAsNode_ne_kCI
  have e2 := IsEnvSet_ciEnv_of_ne env argv _ noAttach_ne_kCI
  have e3 := IsEnvSet_ciEnv_of_ne env argv _ crashService_ne_kCI
  obtain ⟨rn, cd, dbg⟩ := cfg
  cases rn <;> cases cd <;> cases dbg <;>
    cases h1 : IsEnvSet Platform.win env kRunAsNode <;>
    cases h2 : IsEnvSet Platform.win env "ELECTRON_NO_ATTACH_CONSOLE" <;>
    cases h3 : IsEnvSet Platform.win env "ELECTRON_INTERNAL_CRASH_SERVICE" <;>
    cases h4 : ext.CheckCommandLineArguments argv <;>
    simp [wWinMain, winBranch, winBootstrap, winEnv, winRunAsNode, winNodeBranch, winAppBranch,
      ciSetup_eq, World.emit, World.emits, World.ret, e1, e2, e3, h1, h2, h3, h4]

theorem wWinMain_none (cfg : BuildConfig) (ext : Externals) (env : Env) (hinstance : Nat)
    (cmd : WString) :
    wWinMain cfg ext env hinstance cmd none =
      { exitCode := -1, env := env, trace := [Event.localFree] } := by
  simp [wWinMain, World.emit, World.ret]

theorem handoffs_append (a b : List Event) : handoffs (a ++ b) = handoffs a ++ handoffs b := by
  simp [handoffs]

theorem winBootstrap_isBootstrap (cfg : BuildConfig) (env : Env) (argv : List WString) :
    ∀ e ∈ winBootstrap cfg env argv, e.isBootstrap = true := by
  intro e he
  unfold winBootstrap ciEvents crtStderrRouting at he
  simp only [List.mem_append] at he
  rcases he with (he | he) | he
  · split at he
    · split at he
      · simp at he; rcases he with h | h | h | h | h <;> simp [h, Event.isBootstrap]
      · split at he
        · simp at he; rcases he with h | h | h | h | h | h <;> simp [h, Event.isBootstrap]
        · simp at he
    · simp at he
  · split at he
    · simp at he; simp [he, Event.isBootstrap]
    · simp at he
  · split at he
    · simp at he
    · simp at he; simp [he, Event.isBootstrap]

theorem handoffs_winBootstrap (cfg : BuildConfig) (env : Env) (argv : List WString) :
    handoffs (winBootstrap cfg env argv) = [] := by
  unfold handoffs
  rw [List.filter_eq_nil_iff]
  intro e he
  have := winBootstrap_isBootstrap cfg env argv e he
  cases e <;> simp_all [Event.isBootstrap, Event.isHandoff]

theorem handoffs_nil : handoffs [] = [] := rfl

theorem handoffs_cons (e : Event) (t : List Event) :
    handoffs (e :: t) = if e.isHandoff then e :: handoffs t else handoffs t := by
  simp [handoffs, List.filter_cons]

theorem selectedMode_nil : selectedMode [] = none := rfl

theorem selectedMode_cons (e : Event) (t : List Event) :
    selectedMode (e :: t) = (e.mode).or (selectedMode t) := by
  cases h : e.mode <;> simp [selectedMode, List.findSome?_cons, h]

theorem selectedMode_append (a b : List Event) :
    selectedMode (a ++ b) = (selectedMode a).or (selectedMode b) := by
  simp [selectedMode, List.findSome?_append]

theorem selectedMode_winBootstrap (cfg : BuildConfig) (env : Env) (argv : List WString) :
    selectedMode (winBootstrap cfg env argv) = none := by
  unfold selectedMode
  rw [List.findSome?_eq_none_iff]
  intro e he
  have := winBootstrap_isBootstrap cfg env argv e he
  cases e <;> simp_all [Event.isBootstrap, Event.mode]

/-- C1: when `ENABLE_RUN_AS_NODE` is compiled in and `IsEnvSet` reports
`ELECTRON_RUN_AS_NODE` set, each entry point (`wWinMain` after successful
argument acquisition, Linux `main`, macOS `main`) takes the embedded-runtime
branch: its only entry-point call is `atom::NodeMain` (on macOS
`AtomInitializeICUandStartNode`), whose result it returns, for every argument
vector and whatever the rest of the environment holds. -/
theorem C1_embedded_runtime_first (cfg : BuildConfig) (ext : Externals) (env : Env)
    (hinstance : Nat) (cmd : WString) (wargv : List WString) (argv : List String)
    (hcfg : cfg.enableRunAsNode = true) :
    (IsEnvSet Platform.win env kRunAsNode = true →
      handoffs (wWinMain cfg ext env hinstance cmd (some wargv)).trace =
          [Event.nodeMain (wargv.map ext.WideToUTF8) (ext.NodeMain (wargv.map ext.WideToUTF8))] ∧
        selectedMode (wWinMain cfg ext env hinstance cmd (some wargv)).trace =
          some ExecutionMode.EmbeddedRuntimeOnly ∧
        (wWinMain cfg ext env hinstance cmd (some wargv)).exitCode =
          ext.NodeMain (wargv.map ext.WideToUTF8)) ∧
    (IsEnvSet Platform.linux env kRunAsNode = true →
      handoffs (mainLinux cfg ext env argv).trace = [Event.nodeMain argv (ext.NodeMain argv)] ∧
        selectedMode (mainLinux cfg ext env argv).trace =
          some ExecutionMode.EmbeddedRuntimeOnly ∧
        (mainLinux cfg ext env argv).exitCode = ext.NodeMain argv) ∧
    (IsEnvSet Platform.mac env kRunAsNode = true →
      handoffs (mainMac cfg ext env argv).trace =
          [Event.atomInitializeICUandStartNode argv (ext.AtomInitializeICUandStartNode argv)] ∧
        selectedMode (mainMac cfg ext env argv).trace =
          some ExecutionMode.EmbeddedRuntimeOnly ∧
        (mainMac cfg ext env argv).exitCode = ext.AtomInitializeICUandStartNode argv) := by
  refine ⟨fun h => ?_, fun h => ?_, fun h => ?_⟩
  · rw [wWinMain_some]
    simp [handoffs_append, handoffs_winBootstrap, selectedMode_append,
      selectedMode_winBootstrap, winBranch, winRunAsNode, hcfg, h, handoffs_cons, handoffs_nil,
      Event.isHandoff, selectedMode_cons, selectedMode_nil, Event.mode]
  · simp [mainLinux, hcfg, h, World.emits, World.ret, handoffs_cons, handoffs_nil,
      Event.isHandoff, selectedMode_cons, selectedMode_nil, Event.mode]
  · simp [mainMac, hcfg, h, World.emit, World.ret, handoffs_cons, handoffs_nil,
      Event.isHandoff, selectedMode_cons, selectedMode_nil, Event.mode]

/-- Witness for C1: `ELECTRON_RUN_AS_NODE=1` together with the crash-service
flag, in a debug build, with a `--ci` argument. -/
theorem C1_embedded_runtime_first_witness :
    debugBuild.enableRunAsNode = true ∧
    IsEnvSet Platform.win ((Env.single kRunAsNode "1").putenv
        "ELECTRON_INTERNAL_CRASH_SERVICE" "1") kRunAsNode = true ∧
    IsEnvSet Platform.linux ((Env.single kRunAsNode "1").putenv
        "ELECTRON_INTERNAL_CRASH_SERVICE" "1") kRunAsNode = true ∧
    IsEnvSet Platform.mac ((Env.single kRunAsNode "1").putenv
        "ELECTRON_INTERNAL_CRASH_SERVICE" "1") kRunAsNode = true ∧
    handoffs (wWinMain debugBuild sampleExternals
        ((Env.single kRunAsNode "1").putenv "ELECTRON_INTERNAL_CRASH_SERVICE" "1") 0
        (L "--ci") (some [L "prog", L "--ci"])).trace =
      [Event.nodeMain ["prog", "--ci"] 11] ∧
    handoffs (mainLinux debugBuild sampleExternals
        ((Env.single kRunAsNode "1").putenv "ELECTRON_INTERNAL_CRASH_SERVICE" "1")
        ["prog", "--ci"]).trace =
      [Event.nodeMain ["prog", "--ci"] 11] ∧
    handoffs (mainMac debugBuild sampleExternals
        ((Env.single kRunAsNode "1").putenv "ELECTRON_INTERNAL_CRASH_SERVICE" "1")
        ["prog", "--ci"]).trace =
      [Event.atomInitializeICUandStartNode ["prog", "--ci"] 15] := by
  have hw : IsEnvSet Platform.win ((Env.single kRunAsNode "1").putenv
      "ELECTRON_INTERNAL_CRASH_SERVICE" "1") kRunAsNode = true := by decide
  have hl : IsEnvSet Platform.linux ((Env.single kRunAsNode "1").putenv
      "ELECTRON_INTERNAL_CRASH_SERVICE" "1") kRunAsNode = true := by decide
  have hm : IsEnvSet Platform.mac ((Env.single kRunAsNode "1").putenv
      "ELECTRON_INTERNAL_CRASH_SERVICE" "1") kRunAsNode = true := by decide
  have h := C1_embedded_runtime_first debugBuild sampleExternals
      ((Env.single kRunAsNode "1").putenv "ELECTRON_INTERNAL_CRASH_SERVICE" "1") 0
      (L "--ci") [L "prog", L "--ci"] ["prog", "--ci"] rfl
  refine ⟨rfl, hw, hl, hm, ?_, (h.2.1 hl).1, (h.2.2 hm).1⟩
  rw [(h.1 hw).1]
  decide

/-- C2 (amended): when `IsEnvSet` reports neither `ELECTRON_RUN_AS_NODE` nor
`ELECTRON_INTERNAL_CRASH_SERVICE` set, the entry point takes the application
branch and calls neither `atom::NodeMain` nor `crash_service::Main`.  The Linux
and macOS `main` always hand off to `content::ContentMain` / `AtomMain` and
return its result.  `wWinMain` does so when argument acquisition succeeded and
`atom::CheckCommandLineArguments` accepted the arguments; when the check
rejects them, or when acquisition failed, it returns `-1` with no entry-point
call at all. -/
theorem C2_application_branch (cfg : BuildConfig) (ext : Externals) (env : Env)
    (hinstance : Nat) (cmd : WString) (acquired : Option (List WString)) (argv : List String) :
    (IsEnvSet Platform.win env kRunAsNode = false →
      IsEnvSet Platform.win env "ELECTRON_INTERNAL_CRASH_SERVICE" = false →
      (∀ wargv, acquired = some wargv → ext.CheckCommandLineArguments wargv = true →
        handoffs (wWinMain cfg ext env hinstance cmd acquired).trace =
            [Event.contentMain (winParams hinstance) (ext.ContentMain (winParams hinstance))] ∧
          selectedMode (wWinMain cfg ext env hinstance cmd acquired).trace =
            some ExecutionMode.ApplicationMain ∧
          (wWinMain cfg ext env hinstance cmd acquired).exitCode =
            ext.ContentMain (winParams hinstance)) ∧
      (∀ wargv, acquired = some wargv → ext.CheckCommandLineArguments wargv = false →
        handoffs (wWinMain cfg ext env hinstance cmd acquired).trace = [] ∧
          selectedMode (wWinMain cfg ext env hinstance cmd acquired).trace =
            some ExecutionMode.ApplicationMain ∧
          (wWinMain cfg ext env hinstance cmd acquired).exitCode = -1) ∧
      (acquired = none →
        handoffs (wWinMain cfg ext env hinstance cmd acquired).trace = [] ∧
          selectedMode (wWinMain cfg ext env hinstance cmd acquired).trace = none ∧
          (wWinMain cfg ext env hinstance cmd acquired).exitCode = -1)) ∧
    (IsEnvSet Platform.linux env kRunAsNode = false →
      handoffs (mainLinux cfg ext env argv).trace =
          [Event.contentMain (linuxParams argv) (ext.ContentMain (linuxParams argv))] ∧
        selectedMode (mainLinux cfg ext env argv).trace = some ExecutionMode.ApplicationMain ∧
        (mainLinux cfg ext env argv).exitCode = ext.ContentMain (linuxParams argv)) ∧
    (IsEnvSet Platform.mac env kRunAsNode = false →
      handoffs (mainMac cfg ext env argv).trace = [Event.atomMain argv (ext.AtomMain argv)] ∧
        selectedMode (mainMac cfg ext env argv).trace = some ExecutionMode.ApplicationMain ∧
        (mainMac cfg ext env argv).exitCode = ext.AtomMain argv) := by
  refine ⟨fun h1 h2 => ⟨?_, ?_, ?_⟩, fun h => ?_, fun h => ?_⟩
  · rintro wargv rfl hc
    rw [wWinMain_some]
    simp [handoffs_append, handoffs_winBootstrap, selectedMode_append,
      selectedMode_winBootstrap, winBranch, winRunAsNode, h1, h2, hc, handoffs_cons,
      handoffs_nil, Event.isHandoff, selectedMode_cons, selectedMode_nil, Event.mode]
  · rintro wargv rfl hc
    rw [wWinMain_some]
    simp [handoffs_append, handoffs_winBootstrap, selectedMode_append,
      selectedMode_winBootstrap, winBranch, winRunAsNode, h1, h2, hc, handoffs_cons,
      handoffs_nil, Event.isHandoff, selectedMode_cons, selectedMode_nil, Event.mode]
  · rintro rfl
    rw [wWinMain_none]
    simp [handoffs_cons, handoffs_nil, Event.isHandoff, selectedMode_cons, selectedMode_nil,
      Event.mode]
  · simp [mainLinux, h, World.emits, World.ret, handoffs_cons, handoffs_nil,
      Event.isHandoff, selectedMode_cons, selectedMode_nil, Event.mode]
  · simp [mainMac, h, World.emit, World.ret, handoffs_cons, handoffs_nil,
      Event.isHandoff, selectedMode_cons, selectedMode_nil, Event.mode]

/-- Witness for C2 (amended): empty environment, release build, arguments
`prog` accepted by the argument check. -/
theorem C2_application_branch_witness :
    IsEnvSet Platform.win Env.empty kRunAsNode = false ∧
    IsEnvSet Platform.win Env.empty "ELECTRON_INTERNAL_CRASH_SERVICE" = false ∧
    sampleExternals.CheckCommandLineArguments [L "prog"] = true ∧
    handoffs (wWinMain releaseBuild sampleExternals Env.empty 0 [] (some [L "prog"])).trace =
      [Event.contentMain (winParams 0) 13] :=
  ⟨by decide, by decide, rfl,
    ((C2_application_branch releaseBuild sampleExternals Env.empty 0 [] (some [L "prog"]) []).1
      (by decide) (by decide)).1 [L "prog"] rfl rfl |>.1⟩

/-- Counterexample to C2 as stated: on Windows, with neither flag set, the
dispatcher hands off to no entry point and returns `-1` when
`atom::CheckCommandLineArguments` rejects the arguments, and likewise when
argument acquisition failed. -/
theorem C2_counterexample :
    IsEnvSet Platform.win Env.empty kRunAsNode = false ∧
    IsEnvSet Platform.win Env.empty "ELECTRON_INTERNAL_CRASH_SERVICE" = false ∧
    handoffs (wWinMain releaseBuild rejectingExternals Env.empty 0 [] (some [L "prog"])).trace
      = [] ∧
    (wWinMain releaseBuild rejectingExternals Env.empty 0 [] (some [L "prog"])).exitCode = -1 ∧
    handoffs (wWinMain releaseBuild sampleExternals Env.empty 0 [] none).trace = [] ∧
    (wWinMain releaseBuild sampleExternals Env.empty 0 [] none).exitCode = -1 := by
  decide

theorem winBootstrap_not_isApplication (cfg : BuildConfig) (env : Env) (argv : List WString) :
    ∀ e ∈ winBootstrap cfg env argv, e.isApplication = false := by
  intro e he
  have := winBootstrap_isBootstrap cfg env argv e he
  cases e <;> simp_all [Event.isBootstrap, Event.isApplication]

/-- C3 (amended): in `wWinMain`, after successful argument acquisition, when
the embedded-runtime branch is not taken (`ENABLE_RUN_AS_NODE` compiled out or
`ELECTRON_RUN_AS_NODE` not reported set) and `IsEnvSet` reports
`ELECTRON_INTERNAL_CRASH_SERVICE` set, the only entry-point call is
`crash_service::Main(cmd)` with the raw command line, its result is returned,
and no call of the application path is made (no argument check, no sandbox
descriptor, no delegate, no `ContentMain`).  The Linux and macOS `main` have no
crash-service branch: when the embedded-runtime branch is not taken they hand
off to `content::ContentMain` / `AtomMain`, whatever the value of
`ELECTRON_INTERNAL_CRASH_SERVICE`. -/
theorem C3_crash_service_windows (cfg : BuildConfig) (ext : Externals) (env : Env)
    (hinstance : Nat) (cmd : WString) (wargv : List WString) (argv : List String) :
    ((cfg.enableRunAsNode = false ∨ IsEnvSet Platform.win env kRunAsNode = false) →
      IsEnvSet Platform.win env "ELECTRON_INTERNAL_CRASH_SERVICE" = true →
      handoffs (wWinMain cfg ext env hinstance cmd (some wargv)).trace =
          [Event.crashServiceMain cmd (ext.CrashServiceMain cmd)] ∧
        selectedMode (wWinMain cfg ext env hinstance cmd (some wargv)).trace =
          some ExecutionMode.CrashReportService ∧
        (wWinMain cfg ext env hinstance cmd (some wargv)).exitCode = ext.CrashServiceMain cmd ∧
        (∀ e ∈ (wWinMain cfg ext env hinstance cmd (some wargv)).trace,
          e.isApplication = false)) ∧
    ((cfg.enableRunAsNode = false ∨ IsEnvSet Platform.linux env kRunAsNode = false) →
      handoffs (mainLinux cfg ext env argv).trace =
        [Event.contentMain (linuxParams argv) (ext.ContentMain (linuxParams argv))]) ∧
    ((cfg.enableRunAsNode = false ∨ IsEnvSet Platform.mac env kRunAsNode = false) →
      handoffs (mainMac cfg ext env argv).trace = [Event.atomMain argv (ext.AtomMain argv)]) := by
  refine ⟨fun hnode hcrash => ?_, fun hnode => ?_, fun hnode => ?_⟩
  · have hr : winRunAsNode cfg env = false := by
      rcases hnode with h | h <;> simp [winRunAsNode, h]
    rw [wWinMain_some]
    refine ⟨?_, ?_, ?_, ?_⟩
    · simp [handoffs_append, handoffs_winBootstrap, winBranch, hr, hcrash, handoffs_cons,
        handoffs_nil, Event.isHandoff]
    · simp [selectedMode_append, selectedMode_winBootstrap, winBranch, hr, hcrash,
        selectedMode_cons, selectedMode_nil, Event.mode]
    · simp [winBranch, hr, hcrash]
    · intro e he
      simp only [List.mem_append] at he
      rcases he with (he | he) | he
      · exact winBootstrap_not_isApplication cfg env wargv e he
      · simp [winBranch, hr, hcrash] at he
        simp [he, Event.isApplication]
      · simp at he
        simp [he, Event.isApplication]
  · have hr : (cfg.enableRunAsNode && IsEnvSet Platform.linux env kRunAsNode) = false := by
      rcases hnode with h | h <;> simp [h]
    simp [mainLinux, hr, World.emits, World.ret, handoffs_cons, handoffs_nil, Event.isHandoff]
  · have hr : (cfg.enableRunAsNode && IsEnvSet Platform.mac env kRunAsNode) = false := by
      rcases hnode with h | h <;> simp [h]
    simp [mainMac, hr, World.emit, World.ret, handoffs_cons, handoffs_nil, Event.isHandoff]

/-- Witness for C3 (amended): `ELECTRON_INTERNAL_CRASH_SERVICE=1` alone, in a
release build. -/
theorem C3_crash_service_windows_witness :
    IsEnvSet Platform.win (Env.single "ELECTRON_INTERNAL_CRASH_SERVICE" "1") kRunAsNode
      = false ∧
    IsEnvSet Platform.win (Env.single "ELECTRON_INTERNAL_CRASH_SERVICE" "1")
      "ELECTRON_INTERNAL_CRASH_SERVICE" = true ∧
    handoffs (wWinMain releaseBuild sampleExternals
        (Env.single "ELECTRON_INTERNAL_CRASH_SERVICE" "1") 0 (L "--x")
        (some [L "prog", L "--x"])).trace = [Event.crashServiceMain (L "--x") 12] :=
  ⟨by decide, by decide,
    ((C3_crash_service_windows releaseBuild sampleExternals
      (Env.single "ELECTRON_INTERNAL_CRASH_SERVICE" "1") 0 (L "--x") [L "prog", L "--x"] []).1
      (Or.inr (by decide)) (by decide)).1⟩

/-- Counterexample to C3 as stated: the Linux and macOS `main` never read
`ELECTRON_INTERNAL_CRASH_SERVICE`; with that variable set and
`ELECTRON_RUN_AS_NODE` unset they enter the application framework
(`content::ContentMain`, `AtomMain`). -/
theorem C3_counterexample :
    IsEnvSet Platform.linux (Env.single "ELECTRON_INTERNAL_CRASH_SERVICE" "1") kRunAsNode
      = false ∧
    IsEnvSet Platform.linux (Env.single "ELECTRON_INTERNAL_CRASH_SERVICE" "1")
      "ELECTRON_INTERNAL_CRASH_SERVICE" = true ∧
    handoffs (mainLinux releaseBuild sampleExternals
        (Env.single "ELECTRON_INTERNAL_CRASH_SERVICE" "1") ["prog"]).trace =
      [Event.contentMain (linuxParams ["prog"]) 13] ∧
    handoffs (mainMac releaseBuild sampleExternals
        (Env.single "ELECTRON_INTERNAL_CRASH_SERVICE" "1") ["prog"]).trace =
      [Event.atomMain ["prog"] 14] := by
  decide

theorem IsEnvSet_of_value (p : Platform) (env : Env) (name : String) (c : Char)
    (cs : List Char) (hc : c ≠ Char.ofNat 0) (h : env name = some (String.mk (c :: cs))) :
    IsEnvSet p env name = true := by
  cases p <;> simp [IsEnvSet, getenv_s_required_size, getenv, firstChar, h, hc]

theorem IsEnvSet_win_iff (env : Env) (name : String) :
    IsEnvSet Platform.win env name = true ↔ ∃ v, env name = some v := by
  unfold IsEnvSet getenv_s_required_size
  cases env name <;> simp

theorem IsEnvSet_posix_iff (p : Platform) (hp : p ≠ Platform.win) (env : Env) (name : String) :
    IsEnvSet p env name = true ↔ ∃ v, env name = some v ∧ firstChar v ≠ Char.ofNat 0 := by
  cases p
  · exact absurd rfl hp
  all_goals
    unfold IsEnvSet getenv
    cases env name <;> simp

/-- C4 (value of the code at the failing input): for a variable that exists
with the empty string as value, `getenv_s` reports the required size `1`, so
the `OS_WIN` branch of `IsEnvSet` returns `true`, while the `getenv` branch
used on the other platforms returns `false`.  In `wWinMain` the empty
`ELECTRON_NO_ATTACH_CONSOLE` therefore suppresses the console attach. -/
theorem C4_IsEnvSet_empty_value :
    (Env.single "ELECTRON_NO_ATTACH_CONSOLE" "") "ELECTRON_NO_ATTACH_CONSOLE" = some "" ∧
    getenv_s_required_size (Env.single "ELECTRON_NO_ATTACH_CONSOLE" "")
      "ELECTRON_NO_ATTACH_CONSOLE" = 1 ∧
    IsEnvSet Platform.win (Env.single "ELECTRON_NO_ATTACH_CONSOLE" "")
      "ELECTRON_NO_ATTACH_CONSOLE" = true ∧
    IsEnvSet Platform.linux (Env.single "ELECTRON_NO_ATTACH_CONSOLE" "")
      "ELECTRON_NO_ATTACH_CONSOLE" = false ∧
    IsEnvSet Platform.mac (Env.single "ELECTRON_NO_ATTACH_CONSOLE" "")
      "ELECTRON_NO_ATTACH_CONSOLE" = false ∧
    Event.routeStdioToConsole false ∉
      (wWinMain releaseBuild sampleExternals (Env.single "ELECTRON_NO_ATTACH_CONSOLE" "") 0 []
        (some [L "prog"])).trace := by
  decide

/-- C5: when `CommandLineToArgvW` yields a null pointer, `wWinMain` returns `-1`,
leaves the environment as it found it, and its only call is the `LocalFree` of
the destructor of `Arguments`: no environment write, no CRT report routing, no
console attach, no `atexit` registration, no ICU initialization, no argument
check and no entry-point call. -/
theorem C5_acquisition_failure (cfg : BuildConfig) (ext : Externals) (env : Env)
    (hinstance : Nat) (cmd : WString) :
    (wWinMain cfg ext env hinstance cmd none).exitCode = -1 ∧
      (wWinMain cfg ext env hinstance cmd none).env = env ∧
      (wWinMain cfg ext env hinstance cmd none).trace = [Event.localFree] ∧
      (∀ e ∈ (wWinMain cfg ext env hinstance cmd none).trace,
        e.isBootstrap = false ∧ e.isHandoff = false ∧ e.isApplication = false ∧
        e ≠ Event.initializeICU ∧ e ≠ Event.atExitManagerCreate) := by
  rw [wWinMain_none]
  simp [Event.isBootstrap, Event.isHandoff, Event.isApplication]

/-- Witness for C5: the only call of a run with a null `argv` is `LocalFree`. -/
theorem C5_acquisition_failure_witness :
    Event.localFree ∈ (wWinMain debugBuild sampleExternals Env.empty 0 [] none).trace ∧
    (Event.localFree.isBootstrap = false ∧ Event.localFree.isHandoff = false ∧
      Event.localFree.isApplication = false ∧ Event.localFree ≠ Event.initializeICU ∧
      Event.localFree ≠ Event.atExitManagerCreate) :=
  ⟨by decide,
    (C5_acquisition_failure debugBuild sampleExternals Env.empty 0 []).2.2.2
      Event.localFree (by decide)⟩

/-- C6 (amended): the exit code of every run is either the value returned by
the single entry point that was called, or `-1` with no entry point called; the
latter happens on Windows only, when argument acquisition failed or when, in
the application branch, `atom::CheckCommandLineArguments` rejected the
arguments. -/
theorem C6_exit_code (cfg : BuildConfig) (ext : Externals) (env : Env)
    (hinstance : Nat) (cmd : WString) (acquired : Option (List WString)) (argv : List String) :
    ((∃ e, handoffs (wWinMain cfg ext env hinstance cmd acquired).trace = [e] ∧
          e.handoffRet = some (wWinMain cfg ext env hinstance cmd acquired).exitCode) ∨
      (handoffs (wWinMain cfg ext env hinstance cmd acquired).trace = [] ∧
        (wWinMain cfg ext env hinstance cmd acquired).exitCode = -1 ∧
        (acquired = none ∨
          ∃ wargv, acquired = some wargv ∧ ext.CheckCommandLineArguments wargv = false ∧
            selectedMode (wWinMain cfg ext env hinstance cmd acquired).trace =
              some ExecutionMode.ApplicationMain))) ∧
    (∃ e, handoffs (mainLinux cfg ext env argv).trace = [e] ∧
      e.handoffRet = some (mainLinux cfg ext env argv).exitCode) ∧
    (∃ e, handoffs (mainMac cfg ext env argv).trace = [e] ∧
      e.handoffRet = some (mainMac cfg ext env argv).exitCode) := by
  refine ⟨?_, ?_, ?_⟩
  · cases acquired with
    | none =>
      right
      rw [wWinMain_none]
      simp [handoffs_cons, handoffs_nil, Event.isHandoff]
    | some wargv =>
      rw [wWinMain_some]
      cases h1 : winRunAsNode cfg env <;>
        cases h2 : IsEnvSet Platform.win env "ELECTRON_INTERNAL_CRASH_SERVICE" <;>
        cases h3 : ext.CheckCommandLineArguments wargv <;>
        simp [handoffs_append, handoffs_winBootstrap, selectedMode_append,
          selectedMode_winBootstrap, winBranch, h1, h2, h3, handoffs_cons, handoffs_nil,
          Event.isHandoff, Event.handoffRet, selectedMode_cons, selectedMode_nil, Event.mode]
  · cases h : (cfg.enableRunAsNode && IsEnvSet Platform.linux env kRunAsNode) <;>
      simp [mainLinux, h, World.emits, World.ret, handoffs_cons, handoffs_nil,
        Event.isHandoff, Event.handoffRet]
  · cases h : (cfg.enableRunAsNode && IsEnvSet Platform.mac env kRunAsNode) <;>
      simp [mainMac, h, World.emit, World.ret, handoffs_cons, handoffs_nil,
        Event.isHandoff, Event.handoffRet]

/-- Counterexample to C6 as stated: `wWinMain` returns the local failure code
`-1` with no entry point called although argument acquisition succeeded, because
`atom::CheckCommandLineArguments` rejected the arguments (lines 144-145). -/
theorem C6_counterexample :
    (wWinMain releaseBuild rejectingExternals Env.empty 0 (L "--bad")
        (some [L "prog", L "--bad"])).exitCode = -1 ∧
    handoffs (wWinMain releaseBuild rejectingExternals Env.empty 0 (L "--bad")
        (some [L "prog", L "--bad"])).trace = [] ∧
    (wWinMain releaseBuild rejectingExternals Env.empty 0 (L "--bad")
        (some [L "prog", L "--bad"])).trace =
      [Event.routeStdioToConsole false, Event.atexitOnThreadExit,
       Event.checkCommandLineArguments [L "prog", L "--bad"] false, Event.localFree] := by
  decide

theorem wcsicmp_eq_zero_of_map_eq (a b : WString) (h : a.map towlower = b.map towlower) :
    wcsicmp a b = 0 := by
  induction a generalizing b with
  | nil =>
    cases b with
    | nil => simp [wcsicmp]
    | cons y ys => simp at h
  | cons x xs ih =>
    cases b with
    | nil => simp at h
    | cons y ys =>
      simp only [List.map_cons, List.cons.injEq] at h
      simp [wcsicmp, h.1, ih ys h.2]

theorem ciToken_lower : ciToken.map towlower = ciToken := by decide

theorem ciHit_of_lower (argv : List WString) (h : ∃ a ∈ argv, a.map towlower = ciToken) :
    ciHit argv = true := by
  obtain ⟨a, ha, hl⟩ := h
  simp only [ciHit, List.any_eq_true]
  refine ⟨a, ha, ?_⟩
  have := wcsicmp_eq_zero_of_map_eq a ciToken (by rw [hl, ciToken_lower])
  simp [this]

/-- C7 (amended): in a build with `_DEBUG` defined, after successful argument
acquisition: if `IsEnvSet` does not report `ELECTRON_CI` set and some argument
equals `--ci` up to letter case, `wWinMain` first writes `ELECTRON_CI=1` into the
environment (which it leaves so for the entry point and child processes) and
then routes CRT error and assertion reports to standard error; if `ELECTRON_CI`
is already reported set, it performs the same routing first and leaves the
environment unchanged.  In a build without `_DEBUG` it leaves the environment
unchanged and makes neither an environment write nor a routing call. -/
theorem C7_ci_debug_build (cfg : BuildConfig) (ext : Externals) (env : Env)
    (hinstance : Nat) (cmd : WString) (wargv : List WString) :
    (cfg.crtDebug = true →
      (IsEnvSet Platform.win env kCI = false → (∃ a ∈ wargv, a.map towlower = ciToken) →
        (wWinMain cfg ext env hinstance cmd (some wargv)).env = env.putenv kCI "1" ∧
          (wWinMain cfg ext env hinstance cmd (some wargv)).env kCI = some "1" ∧
          IsEnvSet Platform.win (wWinMain cfg ext env hinstance cmd (some wargv)).env kCI
            = true ∧
          ∃ rest, (wWinMain cfg ext env hinstance cmd (some wargv)).trace =
            Event.putenv kCI "1" :: (crtStderrRouting ++ rest)) ∧
      (IsEnvSet Platform.win env kCI = true →
        (wWinMain cfg ext env hinstance cmd (some wargv)).env = env ∧
          ∃ rest, (wWinMain cfg ext env hinstance cmd (some wargv)).trace =
            crtStderrRouting ++ rest)) ∧
    (cfg.crtDebug = false →
      (wWinMain cfg ext env hinstance cmd (some wargv)).env = env ∧
        ∀ e ∈ (wWinMain cfg ext env hinstance cmd (some wargv)).trace,
          e ∉ crtStderrRouting ∧ ∀ n v, e ≠ Event.putenv n v) := by
  refine ⟨fun hdbg => ⟨fun h hex => ?_, fun h => ?_⟩, fun hdbg => ?_⟩
  · have hhit := ciHit_of_lower wargv hex
    have henv : winEnv cfg env wargv = env.putenv kCI "1" := by
      simp [winEnv, hdbg, ciEnv, h, hhit]
    rw [wWinMain_some]
    rw [henv]
    refine ⟨rfl, ?_, ?_, ?_⟩
    · simp [Env.putenv]
    · simp [Env.putenv, IsEnvSet, getenv_s_required_size]
    · simp [winBootstrap, hdbg, ciEvents, h, hhit]
  · rw [wWinMain_some]
    refine ⟨?_, ?_⟩
    · simp [winEnv, hdbg, ciEnv, h]
    · simp [winBootstrap, hdbg, ciEvents, h]
  · rw [wWinMain_some]
    refine ⟨?_, ?_⟩
    · simp [winEnv, hdbg]
    · cases h1 : winRunAsNode cfg env <;>
        cases h2 : IsEnvSet Platform.win env "ELECTRON_NO_ATTACH_CONSOLE" <;>
        cases h3 : IsEnvSet Platform.win env "ELECTRON_INTERNAL_CRASH_SERVICE" <;>
        cases h4 : ext.CheckCommandLineArguments wargv <;>
        cases h5 : cfg.debug <;>
        simp [winBootstrap, winBranch, hdbg, h1, h2, h3, h4, h5, crtStderrRouting]

/-- Witness for C7 (amended): debug build, empty environment, arguments
`prog --CI`. -/
theorem C7_ci_debug_build_witness :
    debugBuild.crtDebug = true ∧
    IsEnvSet Platform.win Env.empty kCI = false ∧
    (∃ a ∈ [L "prog", L "--CI"], a.map towlower = ciToken) ∧
    (wWinMain debugBuild sampleExternals Env.empty 0 (L "--CI")
      (some [L "prog", L "--CI"])).env kCI = some "1" :=
  ⟨rfl, by decide, ⟨L "--CI", by decide, by decide⟩,
    (((C7_ci_debug_build debugBuild sampleExternals Env.empty 0 (L "--CI")
      [L "prog", L "--CI"]).1 rfl).1 (by decide) ⟨L "--CI", by decide, by decide⟩).2.1⟩

/-- Counterexample to C7 as stated: in a build without `_DEBUG` the block of
lines 72-94 is compiled out; with `ELECTRON_CI` unset and the argument `--ci`,
`wWinMain` leaves `ELECTRON_CI` unset and makes none of the CRT routing calls. -/
theorem C7_counterexample :
    IsEnvSet Platform.win Env.empty kCI = false ∧
    (∃ a ∈ [L "prog", L "--ci"], a.map towlower = ciToken) ∧
    (wWinMain releaseBuild sampleExternals Env.empty 0 (L "--ci")
      (some [L "prog", L "--ci"])).env kCI = none ∧
    (wWinMain releaseBuild sampleExternals Env.empty 0 (L "--ci")
      (some [L "prog", L "--ci"])).trace =
      [Event.routeStdioToConsole false, Event.atexitOnThreadExit,
       Event.checkCommandLineArguments [L "prog", L "--ci"] true, Event.initializeSandboxInfo,
       Event.delegateCreate, Event.atomCommandLineInitW [L "prog", L "--ci"],
       Event.contentMain (winParams 0) 13, Event.delegateDestroy, Event.localFree] :=
  ⟨by decide, ⟨L "--ci", by decide, by decide⟩, by decide, by decide⟩

theorem prefix_of_split {A B pre post : List Event} {x : Event} (hB : x ∉ B)
    (h : A ++ B = pre ++ x :: post) : ∃ c, A = pre ++ x :: c := by
  rcases List.append_eq_append_iff.mp h with ⟨a, _, hb⟩ | ⟨c, ha, hc⟩
  · exact absurd (by rw [hb]; simp) hB
  · cases c with
    | nil =>
      simp only [List.nil_append] at hc
      exact absurd (by rw [← hc]; simp) hB
    | cons y c =>
      simp only [List.cons_append, List.cons.injEq] at hc
      exact ⟨c, by rw [ha, hc.1]⟩

theorem split_unique {A C pre post : List Event} {x y : Event} (p : Event → Bool)
    (hA : ∀ e ∈ A, p e = false) (hC : ∀ e ∈ C, p e = false) (hy : p y = true)
    (h : A ++ x :: C = pre ++ y :: post) : pre = A ∧ x = y ∧ post = C := by
  induction A generalizing pre with
  | nil =>
    cases pre with
    | nil =>
      simp only [List.nil_append, List.cons.injEq] at h
      exact ⟨rfl, h.1, h.2.symm⟩
    | cons z pre =>
      simp only [List.nil_append, List.cons_append, List.cons.injEq] at h
      have : y ∈ C := by rw [h.2]; simp
      simp [hC y this] at hy
  | cons a A ih =>
    cases pre with
    | nil =>
      simp only [List.nil_append, List.cons_append, List.cons.injEq] at h
      have := hA a (by simp)
      rw [h.1, hy] at this
      simp at this
    | cons z pre =>
      simp only [List.cons_append, List.cons.injEq] at h
      obtain ⟨h1, h2, h3⟩ := ih (fun e he => hA e (by simp [he])) h.2
      exact ⟨by rw [h.1, h1], h2, h3⟩

theorem route_not_mem_winBranch (cfg : BuildConfig) (ext : Externals) (env : Env)
    (hinstance : Nat) (cmd : WString) (argv : List WString) (b : Bool) :
    Event.routeStdioToConsole b ∉
      (winBranch cfg ext env hinstance cmd argv).2 ++ [Event.localFree] := by
  unfold winBranch
  split
  · simp
  · split
    · simp
    · split <;> simp

theorem route_mem_winBootstrap (cfg : BuildConfig) (env : Env) (argv : List WString) (b : Bool) :
    Event.routeStdioToConsole b ∈ winBootstrap cfg env argv ↔
      (b = false ∧ (winRunAsNode cfg env ||
        !IsEnvSet Platform.win env "ELECTRON_NO_ATTACH_CONSOLE") = true) := by
  unfold winBootstrap ciEvents crtStderrRouting
  cases cfg.crtDebug <;> cases cfg.debug <;> cases IsEnvSet Platform.win env kCI <;>
    cases ciHit argv <;>
    cases (winRunAsNode cfg env || !IsEnvSet Platform.win env "ELECTRON_NO_ATTACH_CONSOLE") <;>
    simp

theorem route_count_winBootstrap (cfg : BuildConfig) (env : Env) (argv : List WString) :
    (winBootstrap cfg env argv).count (Event.routeStdioToConsole false) ≤ 1 := by
  unfold winBootstrap ciEvents crtStderrRouting
  cases cfg.crtDebug <;> cases cfg.debug <;> cases IsEnvSet Platform.win env kCI <;>
    cases ciHit argv <;>
    cases (winRunAsNode cfg env || !IsEnvSet Platform.win env "ELECTRON_NO_ATTACH_CONSOLE") <;>
    simp [List.count_cons]

theorem selectedMode_winBranch (cfg : BuildConfig) (ext : Externals) (env : Env)
    (hinstance : Nat) (cmd : WString) (argv : List WString) :
    selectedMode ((winBranch cfg ext env hinstance cmd argv).2 ++ [Event.localFree]) =
      some (if winRunAsNode cfg env then ExecutionMode.EmbeddedRuntimeOnly
        else if IsEnvSet Platform.win env "ELECTRON_INTERNAL_CRASH_SERVICE" then
          ExecutionMode.CrashReportService
        else ExecutionMode.ApplicationMain) := by
  cases h1 : winRunAsNode cfg env <;>
    cases h2 : IsEnvSet Platform.win env "ELECTRON_INTERNAL_CRASH_SERVICE" <;>
    cases h3 : ext.CheckCommandLineArguments argv <;>
    simp [winBranch, h1, h2, h3, selectedMode_cons, selectedMode_nil, Event.mode]

theorem selectedMode_wWinMain (cfg : BuildConfig) (ext : Externals) (env : Env)
    (hinstance : Nat) (cmd : WString) (argv : List WString) :
    selectedMode (wWinMain cfg ext env hinstance cmd (some argv)).trace =
      some (if winRunAsNode cfg env then ExecutionMode.EmbeddedRuntimeOnly
        else if IsEnvSet Platform.win env "ELECTRON_INTERNAL_CRASH_SERVICE" then
          ExecutionMode.CrashReportService
        else ExecutionMode.ApplicationMain) := by
  rw [wWinMain_some, List.append_assoc, selectedMode_append, selectedMode_winBootstrap,
    selectedMode_winBranch]
  simp

/-- Console attach relative to `IsEnvSet`: in `wWinMain`, after successful
argument acquisition, `base::RouteStdioToConsole(false)` is called if and only
if the run takes the embedded-runtime branch or `IsEnvSet` returns `false` for
`ELECTRON_NO_ATTACH_CONSOLE`; it is called at most once, never with another
argument, and no entry-point call precedes it. -/
theorem wWinMain_console_attach (cfg : BuildConfig) (ext : Externals) (env : Env)
    (hinstance : Nat) (cmd : WString) (wargv : List WString) :
    (Event.routeStdioToConsole false ∈ (wWinMain cfg ext env hinstance cmd (some wargv)).trace ↔
        (selectedMode (wWinMain cfg ext env hinstance cmd (some wargv)).trace =
            some ExecutionMode.EmbeddedRuntimeOnly ∨
          IsEnvSet Platform.win env "ELECTRON_NO_ATTACH_CONSOLE" = false)) ∧
      (wWinMain cfg ext env hinstance cmd (some wargv)).trace.count
          (Event.routeStdioToConsole false) ≤ 1 ∧
      Event.routeStdioToConsole true ∉ (wWinMain cfg ext env hinstance cmd (some wargv)).trace ∧
      (∀ pre post, (wWinMain cfg ext env hinstance cmd (some wargv)).trace =
          pre ++ Event.routeStdioToConsole false :: post → handoffs pre = []) := by
  have hsel := selectedMode_wWinMain cfg ext env hinstance cmd wargv
  have hnb := route_not_mem_winBranch cfg ext env hinstance cmd wargv
  rw [hsel, wWinMain_some]
  simp only [List.append_assoc]
  refine ⟨?_, ?_, ?_, ?_⟩
  · rw [List.mem_append, route_mem_winBootstrap]
    simp only [hnb false, or_false, true_and]
    cases h1 : winRunAsNode cfg env <;>
      cases h2 : IsEnvSet Platform.win env "ELECTRON_NO_ATTACH_CONSOLE" <;>
      cases h3 : IsEnvSet Platform.win env "ELECTRON_INTERNAL_CRASH_SERVICE" <;> simp
  · rw [List.count_append, List.count_eq_zero_of_not_mem (hnb false)]
    exact route_count_winBootstrap cfg env wargv
  · rw [List.mem_append, route_mem_winBootstrap]
    simp [hnb true]
  · intro pre post h
    obtain ⟨c, hc⟩ := prefix_of_split (hnb false) h
    have hz := handoffs_winBootstrap cfg env wargv
    rw [hc, handoffs_append] at hz
    exact (List.append_eq_nil.mp hz).1

/-- Example of `wWinMain_console_attach`: debug build with `ELECTRON_CI=1`; the
console attach follows the CRT routing calls and precedes the application
path. -/
theorem wWinMain_console_attach_example :
    (wWinMain debugBuild sampleExternals (Env.single kCI "1") 0 [] (some [L "prog"])).trace =
      crtStderrRouting ++ Event.routeStdioToConsole false ::
        [Event.checkCommandLineArguments [L "prog"] true, Event.initializeSandboxInfo,
         Event.delegateCreate, Event.atomCommandLineInitW [L "prog"],
         Event.contentMain (winParams 0) 13, Event.delegateDestroy, Event.localFree] ∧
    handoffs crtStderrRouting = [] :=
  ⟨by decide,
    (wWinMain_console_attach debugBuild sampleExternals (Env.single kCI "1") 0 []
      [L "prog"]).2.2.2 crtStderrRouting
      [Event.checkCommandLineArguments [L "prog"] true, Event.initializeSandboxInfo,
       Event.delegateCreate, Event.atomCommandLineInitW [L "prog"],
       Event.contentMain (winParams 0) 13, Event.delegateDestroy, Event.localFree]
      (by decide)⟩

/-- C8 (value of the code at the failing input): on Windows, with
`ELECTRON_NO_ATTACH_CONSOLE` present with the empty string as value, the flag is
not set in the sense of the specification (exists and non-empty), and the run
takes the application branch, not the embedded-runtime branch; yet `IsEnvSet`
returns `true` for it and `wWinMain` makes no `base::RouteStdioToConsole` call.
So the equivalence "console attached iff embedded-runtime mode or flag not set"
fails at this input.  With the variable absent the same run attaches the
console. -/
theorem C8_console_attach_empty_value :
    specIsSet (Env.single "ELECTRON_NO_ATTACH_CONSOLE" "") "ELECTRON_NO_ATTACH_CONSOLE"
      = false ∧
    IsEnvSet Platform.win (Env.single "ELECTRON_NO_ATTACH_CONSOLE" "")
      "ELECTRON_NO_ATTACH_CONSOLE" = true ∧
    selectedMode (wWinMain releaseBuild sampleExternals
        (Env.single "ELECTRON_NO_ATTACH_CONSOLE" "") 0 [] (some [L "prog"])).trace =
      some ExecutionMode.ApplicationMain ∧
    (wWinMain releaseBuild sampleExternals (Env.single "ELECTRON_NO_ATTACH_CONSOLE" "") 0 []
        (some [L "prog"])).trace =
      [Event.atexitOnThreadExit, Event.checkCommandLineArguments [L "prog"] true,
       Event.initializeSandboxInfo, Event.delegateCreate,
       Event.atomCommandLineInitW [L "prog"], Event.contentMain (winParams 0) 13,
       Event.delegateDestroy, Event.localFree] ∧
    ¬ (Event.routeStdioToConsole false ∈
          (wWinMain releaseBuild sampleExternals (Env.single "ELECTRON_NO_ATTACH_CONSOLE" "")
            0 [] (some [L "prog"])).trace ↔
        (selectedMode (wWinMain releaseBuild sampleExternals
              (Env.single "ELECTRON_NO_ATTACH_CONSOLE" "") 0 [] (some [L "prog"])).trace =
            some ExecutionMode.EmbeddedRuntimeOnly ∨
          specIsSet (Env.single "ELECTRON_NO_ATTACH_CONSOLE" "")
            "ELECTRON_NO_ATTACH_CONSOLE" = false)) ∧
    Event.routeStdioToConsole false ∈
      (wWinMain releaseBuild sampleExternals Env.empty 0 [] (some [L "prog"])).trace := by
  decide

/-- C9: the branch an entry point takes is a function of the build and the
initial environment alone: any two runs from the same environment select the
same execution mode, whatever their argument vectors, raw command lines and
externals (on Windows: after successful argument acquisition, and in debug
builds too, where a `--ci` argument makes `wWinMain` write `ELECTRON_CI` before
it reads the mode flags). -/
theorem C9_mode_independent_of_arguments (cfg : BuildConfig) (env : Env) :
    (∀ (ext1 ext2 : Externals) (hinstance1 hinstance2 : Nat) (cmd1 cmd2 : WString)
        (wargv1 wargv2 : List WString),
      selectedMode (wWinMain cfg ext1 env hinstance1 cmd1 (some wargv1)).trace =
          selectedMode (wWinMain cfg ext2 env hinstance2 cmd2 (some wargv2)).trace ∧
        selectedMode (wWinMain cfg ext1 env hinstance1 cmd1 (some wargv1)).trace ≠ none) ∧
    (∀ (ext1 ext2 : Externals) (argv1 argv2 : List String),
      selectedMode (mainLinux cfg ext1 env argv1).trace =
          selectedMode (mainLinux cfg ext2 env argv2).trace ∧
        selectedMode (mainLinux cfg ext1 env argv1).trace ≠ none) ∧
    (∀ (ext1 ext2 : Externals) (argv1 argv2 : List String),
      selectedMode (mainMac cfg ext1 env argv1).trace =
          selectedMode (mainMac cfg ext2 env argv2).trace ∧
        selectedMode (mainMac cfg ext1 env argv1).trace ≠ none) := by
  refine ⟨?_, ?_, ?_⟩
  · intro ext1 ext2 hinstance1 hinstance2 cmd1 cmd2 wargv1 wargv2
    rw [selectedMode_wWinMain, selectedMode_wWinMain]
    simp
  · intro ext1 ext2 argv1 argv2
    cases h : (cfg.enableRunAsNode && IsEnvSet Platform.linux env kRunAsNode) <;>
      simp [mainLinux, h, World.emits, World.ret, selectedMode_cons, selectedMode_nil,
        Event.mode]
  · intro ext1 ext2 argv1 argv2
    cases h : (cfg.enableRunAsNode && IsEnvSet Platform.mac env kRunAsNode) <;>
      simp [mainMac, h, World.emit, World.ret, selectedMode_cons, selectedMode_nil,
        Event.mode]

theorem winBootstrap_count_zero (cfg : BuildConfig) (env : Env) (argv : List WString)
    (e : Event) (he : e.isBootstrap = false) : (winBootstrap cfg env argv).count e = 0 := by
  apply List.count_eq_zero_of_not_mem
  intro hm
  rw [winBootstrap_isBootstrap cfg env argv e hm] at he
  simp at he

theorem winBootstrap_not_isHandoff (cfg : BuildConfig) (env : Env) (argv : List WString) :
    ∀ e ∈ winBootstrap cfg env argv, e.isHandoff = false := by
  intro e he
  have := winBootstrap_isBootstrap cfg env argv e he
  cases e <;> simp_all [Event.isBootstrap, Event.isHandoff]

/-- C10 (amended): in every run in which an entry point calls `atom::NodeMain`
(`wWinMain` and the Linux `main`), it has before that call constructed
`base::AtExitManager` exactly once and called `base::i18n::InitializeICU`
exactly once, the manager is still alive at the call, and after the call
returns the manager is destroyed exactly once and neither is set up again.
A run of `wWinMain` that calls `crash_service::Main` neither constructs
`base::AtExitManager` nor calls `base::i18n::InitializeICU`. -/
theorem C10_node_main_scope (cfg : BuildConfig) (ext : Externals) (env : Env)
    (hinstance : Nat) (cmd : WString) (acquired : Option (List WString)) (argv : List String) :
    (∀ pre post a r,
      (wWinMain cfg ext env hinstance cmd acquired).trace = pre ++ Event.nodeMain a r :: post →
        pre.count Event.atExitManagerCreate = 1 ∧ pre.count Event.initializeICU = 1 ∧
        pre.count Event.atExitManagerDestroy = 0 ∧
        post.count Event.atExitManagerDestroy = 1 ∧
        post.count Event.atExitManagerCreate = 0 ∧ post.count Event.initializeICU = 0) ∧
    (∀ pre post a r,
      (mainLinux cfg ext env argv).trace = pre ++ Event.nodeMain a r :: post →
        pre.count Event.atExitManagerCreate = 1 ∧ pre.count Event.initializeICU = 1 ∧
        pre.count Event.atExitManagerDestroy = 0 ∧
        post.count Event.atExitManagerDestroy = 1 ∧
        post.count Event.atExitManagerCreate = 0 ∧ post.count Event.initializeICU = 0) ∧
    (∀ c r,
      Event.crashServiceMain c r ∈ (wWinMain cfg ext env hinstance cmd acquired).trace →
        Event.atExitManagerCreate ∉ (wWinMain cfg ext env hinstance cmd acquired).trace ∧
        Event.initializeICU ∉ (wWinMain cfg ext env hinstance cmd acquired).trace) := by
  refine ⟨?_, ?_, ?_⟩
  · intro pre post a r h
    cases acquired with
    | none =>
      rw [wWinMain_none] at h
      have : Event.nodeMain a r ∈ [Event.localFree] := by
        rw [show [Event.localFree] = pre ++ Event.nodeMain a r :: post from h]; simp
      simp at this
    | some wargv =>
      rw [wWinMain_some] at h
      simp only [] at h
      cases h1 : winRunAsNode cfg env
      · have hm : Event.nodeMain a r ∈ winBootstrap cfg env wargv ++
            (winBranch cfg ext env hinstance cmd wargv).2 ++ [Event.localFree] := by
          rw [h]; simp
        simp only [List.mem_append] at hm
        rcases hm with (hm | hm) | hm
        · have := winBootstrap_isBootstrap cfg env wargv _ hm
          simp [Event.isBootstrap] at this
        · unfold winBranch at hm
          rw [h1] at hm
          cases h2 : IsEnvSet Platform.win env "ELECTRON_INTERNAL_CRASH_SERVICE" <;>
            cases h3 : ext.CheckCommandLineArguments wargv <;> simp [h2, h3] at hm
        · simp at hm
      · have hb : (winBranch cfg ext env hinstance cmd wargv).2 =
            [Event.atExitManagerCreate, Event.initializeICU,
              Event.nodeMain (wargv.map ext.WideToUTF8) (ext.NodeMain (wargv.map ext.WideToUTF8)),
              Event.atExitManagerDestroy] := by
          simp [winBranch, h1]
        rw [hb] at h
        have h' : (winBootstrap cfg env wargv ++
              [Event.atExitManagerCreate, Event.initializeICU]) ++
            Event.nodeMain (wargv.map ext.WideToUTF8) (ext.NodeMain (wargv.map ext.WideToUTF8)) ::
              [Event.atExitManagerDestroy, Event.localFree] =
            pre ++ Event.nodeMain a r :: post := by
          rw [← h]; simp
        obtain ⟨hpre, _, hpost⟩ := split_unique Event.isHandoff (by
            intro e he
            simp only [List.mem_append] at he
            rcases he with he | he
            · exact winBootstrap_not_isHandoff cfg env wargv e he
            · simp at he
              rcases he with he | he <;> simp [he, Event.isHandoff]) (by
            intro e he
            simp at he
            rcases he with he | he <;> simp [he, Event.isHandoff]) (by simp [Event.isHandoff]) h'
        subst hpre hpost
        simp [List.count_append, List.count_cons,
          winBootstrap_count_zero cfg env wargv _ (show
            Event.atExitManagerCreate.isBootstrap = false from rfl),
          winBootstrap_count_zero cfg env wargv _ (show
            Event.initializeICU.isBootstrap = false from rfl),
          winBootstrap_count_zero cfg env wargv _ (show
            Event.atExitManagerDestroy.isBootstrap = false from rfl)]
  · intro pre post a r h
    cases h1 : (cfg.enableRunAsNode && IsEnvSet Platform.linux env kRunAsNode)
    · have hm : Event.nodeMain a r ∈ (mainLinux cfg ext env argv).trace := by
        rw [h]; simp
      simp [mainLinux, h1, World.emits, World.ret] at hm
    · have ht : (mainLinux cfg ext env argv).trace =
          [Event.initializeICU, Event.atExitManagerCreate] ++
            Event.nodeMain argv (ext.NodeMain argv) :: [Event.atExitManagerDestroy] := by
        simp [mainLinux, h1, World.emits, World.ret]
      rw [ht] at h
      obtain ⟨hpre, _, hpost⟩ := split_unique Event.isHandoff (by
          intro e he
          simp at he
          rcases he with he | he <;> simp [he, Event.isHandoff]) (by
          intro e he
          simp at he
          simp [he, Event.isHandoff]) (by simp [Event.isHandoff]) h
      subst hpre hpost
      simp [List.count_cons]
  · intro c r h
    cases acquired with
    | none =>
      rw [wWinMain_none] at h
      simp at h
    | some wargv =>
      rw [wWinMain_some] at h ⊢
      simp only [List.mem_append] at h ⊢
      cases h1 : winRunAsNode cfg env <;>
        cases h2 : IsEnvSet Platform.win env "ELECTRON_INTERNAL_CRASH_SERVICE" <;>
        cases h3 : ext.CheckCommandLineArguments wargv <;>
        simp only [winBranch, h1, h2, h3] at h ⊢
      all_goals
        first
        | (refine ⟨?_, ?_⟩ <;>
            · rintro ((hm | hm) | hm)
              · have := winBootstrap_isBootstrap cfg env wargv _ hm
                simp [Event.isBootstrap] at this
              · simp at hm
              · simp at hm)
        | (exfalso
           rcases h with (hm | hm) | hm
           · have := winBootstrap_isBootstrap cfg env wargv _ hm
             simp [Event.isBootstrap] at this
           · simp at hm
           · simp at hm)

/-- Witness for C10 (amended): the Linux `main` with `ELECTRON_RUN_AS_NODE=1`. -/
theorem C10_node_main_scope_witness :
    (mainLinux releaseBuild sampleExternals (Env.single kRunAsNode "1") ["prog"]).trace =
      [Event.initializeICU, Event.atExitManagerCreate] ++
        Event.nodeMain ["prog"] 11 :: [Event.atExitManagerDestroy] ∧
    ([Event.initializeICU, Event.atExitManagerCreate].count Event.atExitManagerCreate = 1 ∧
      [Event.initializeICU, Event.atExitManagerCreate].count Event.initializeICU = 1 ∧
      [Event.initializeICU, Event.atExitManagerCreate].count Event.atExitManagerDestroy = 0 ∧
      [Event.atExitManagerDestroy].count Event.atExitManagerDestroy = 1 ∧
      [Event.atExitManagerDestroy].count Event.atExitManagerCreate = 0 ∧
      [Event.atExitManagerDestroy].count Event.initializeICU = 0) :=
  ⟨by decide,
    (C10_node_main_scope releaseBuild sampleExternals (Env.single kRunAsNode "1") 0 []
      none ["prog"]).2.1 [Event.initializeICU, Event.atExitManagerCreate]
      [Event.atExitManagerDestroy] ["prog"] 11 (by decide)⟩

/-- Counterexample to C10 as stated: with `ELECTRON_INTERNAL_CRASH_SERVICE=1`,
`wWinMain` calls `crash_service::Main` without having constructed
`base::AtExitManager` or called `base::i18n::InitializeICU`. -/
theorem C10_counterexample :
    (wWinMain releaseBuild sampleExternals (Env.single "ELECTRON_INTERNAL_CRASH_SERVICE" "1")
        0 (L "--x") (some [L "prog", L "--x"])).trace =
      [Event.routeStdioToConsole false, Event.atexitOnThreadExit,
       Event.crashServiceMain (L "--x") 12, Event.localFree] ∧
    Event.atExitManagerCreate ∉
      (wWinMain releaseBuild sampleExternals (Env.single "ELECTRON_INTERNAL_CRASH_SERVICE" "1")
        0 (L "--x") (some [L "prog", L "--x"])).trace ∧
    Event.initializeICU ∉
      (wWinMain releaseBuild sampleExternals (Env.single "ELECTRON_INTERNAL_CRASH_SERVICE" "1")
        0 (L "--x") (some [L "prog", L "--x"])).trace := by
  decide

end AtomMain
